import Mathlib

set_option maxHeartbeats 1600000

namespace Roombapy

/-- JSON values as produced by `orjson.loads` in `roomba.py`: the telemetry
fragments, the authoritative `master_state` tree and all side-channel values
range over this type.  Numbers are modelled as integers (no claim compares
fractional values). -/
inductive Json where
  | null : Json
  | bool (b : Bool) : Json
  | num (n : Int) : Json
  | str (s : String) : Json
  | arr (elems : List Json) : Json
  | obj (fields : List (String × Json)) : Json

/-- Python equality test `j == s` between a JSON value and a string literal:
true exactly when the value is that string. -/
def Json.isStr (j : Json) (s : String) : Bool :=
  match j with
  | .str t => t = s
  | _ => false

/-- Python `dict` lookup `d[k]` on an association list: first binding wins
(Python dicts never hold duplicate keys). -/
def lookupKey (fields : List (String × Json)) (k : String) : Option Json :=
  match fields with
  | [] => none
  | (k', v) :: rest => if k' = k then some v else lookupKey rest k

/-- Python `dict` assignment `d[k] = v`: replaces the value in place if the
key exists, otherwise appends the new binding (insertion order preserved). -/
def setKey (fields : List (String × Json)) (k : String) (v : Json) :
    List (String × Json) :=
  match fields with
  | [] => [(k, v)]
  | (k', v') :: rest =>
    if k' = k then (k, v) :: rest else (k', v') :: setKey rest k v

theorem lookupKey_setKey_self (fields : List (String × Json)) (k : String)
    (v : Json) : lookupKey (setKey fields k v) k = some v := by
  induction fields with
  | nil => simp [setKey, lookupKey]
  | cons hd tl ih =>
    obtain ⟨k', v'⟩ := hd
    by_cases h : k' = k
    · simp [setKey, lookupKey, h]
    · simp [setKey, lookupKey, h, ih]

theorem lookupKey_setKey_other (fields : List (String × Json)) (k q : String)
    (v : Json) (hne : q ≠ k) :
    lookupKey (setKey fields k v) q = lookupKey fields q := by
  induction fields with
  | nil => simp [setKey, lookupKey, Ne.symm hne]
  | cons hd tl ih =>
    obtain ⟨k', v'⟩ := hd
    by_cases h : k' = k
    · subst h
      simp [setKey, lookupKey, Ne.symm hne]
    · by_cases h2 : k' = q <;> simp [setKey, lookupKey, h, h2, ih, hne]

/-- Key absent from an association list means lookup misses. -/
theorem lookupKey_eq_none (fields : List (String × Json)) (k : String)
    (h : k ∉ fields.map Prod.fst) : lookupKey fields k = none := by
  induction fields with
  | nil => rfl
  | cons hd tl ih =>
    obtain ⟨k', v'⟩ := hd
    simp only [List.map_cons, List.mem_cons] at h
    push_neg at h
    simp [lookupKey, Ne.symm h.1, ih h.2]

/-- `Roomba.dict_merge` (roomba.py): recursive dict merge of the incoming
fragment `merge_dct` into the tree `dct`.  For each fragment key, if the tree
holds a mapping there and the fragment value is also a mapping, merge
recursively; otherwise the fragment value replaces (or creates) the entry. -/
def dict_merge : List (String × Json) → List (String × Json) →
    List (String × Json)
  | dct, [] => dct
  | dct, (k, Json.obj f) :: rest =>
    (match lookupKey dct k with
     | some (Json.obj o) =>
       dict_merge (setKey dct k (Json.obj (dict_merge o f))) rest
     | _ => dict_merge (setKey dct k (Json.obj f)) rest)
  | dct, (k, v) :: rest => dict_merge (setKey dct k v) rest
  termination_by _ mdct => sizeOf mdct
  decreasing_by all_goals (simp_wf; try omega)

/-- The value the merge stores at one key, given the old entry (if any) and
the fragment's value at that key. -/
def mergedValue (old : Option Json) (v : Json) : Json :=
  match old, v with
  | some (Json.obj o), Json.obj f => Json.obj (dict_merge o f)
  | _, _ => v

theorem dict_merge_cons (dct : List (String × Json)) (k : String) (v : Json)
    (rest : List (String × Json)) :
    dict_merge dct ((k, v) :: rest) =
      dict_merge (setKey dct k (mergedValue (lookupKey dct k) v)) rest := by
  cases v with
  | obj f =>
    cases hl : lookupKey dct k with
    | none => simp [dict_merge, mergedValue, hl]
    | some w => cases w <;> simp [dict_merge, mergedValue, hl]
  | null => simp [dict_merge, mergedValue]
  | bool b => simp [dict_merge, mergedValue]
  | num n => simp [dict_merge, mergedValue]
  | str s => simp [dict_merge, mergedValue]
  | arr es => simp [dict_merge, mergedValue]

theorem lookupKey_dict_merge (mdct : List (String × Json)) :
    ∀ dct : List (String × Json), (mdct.map Prod.fst).Nodup → ∀ q : String,
    lookupKey (dict_merge dct mdct) q =
      match lookupKey mdct q with
      | none => lookupKey dct q
      | some v => some (mergedValue (lookupKey dct q) v) := by
  induction mdct with
  | nil =>
    intro dct h q
    simp [dict_merge, lookupKey]
  | cons hd rest ih =>
    obtain ⟨k, v⟩ := hd
    intro dct h q
    simp only [List.map_cons, List.nodup_cons] at h
    rw [dict_merge_cons,
      ih (setKey dct k (mergedValue (lookupKey dct k) v)) h.2 q]
    by_cases hq : q = k
    · subst hq
      have hrest : lookupKey rest q = none := lookupKey_eq_none rest q h.1
      simp [lookupKey, hrest, lookupKey_setKey_self]
    · have hset := lookupKey_setKey_other dct k q
        (mergedValue (lookupKey dct k) v) hq
      cases hrq : lookupKey rest q <;>
        simp [lookupKey, Ne.symm hq, hset, hrq]

/-- Mission states.  Modelled from the spec: the phase-token enumeration of
const.py (`ROOMBA_STATES`) is not under src/; §3 of the spec lists the
mission-phase values `charge, run, dock, recharge, pause, stop, cancelled,
hmUsrDock, hmPostMsn, dockend, new, ...` and the transition rules also use
`hmMidMsn` and `stuck`.  The code's "unknown" state (Python `None`) is
represented as `Option.none` at use sites. -/
inductive RState where
  | charge | new | run | dock | recharge | pause | stop | cancelled
  | hmUsrDock | hmMidMsn | hmPostMsn | dockend | stuck
  deriving DecidableEq

/-- Modelled from the spec: the static phase-token → state table
(const.py's `ROOMBA_STATES`, not under src/).  Known tokens map to their
state; unknown tokens are absent (`none`). -/
def ROOMBA_STATES (token : String) : Option RState :=
  if token = "charge" then some .charge
  else if token = "new" then some .new
  else if token = "run" then some .run
  else if token = "dock" then some .dock
  else if token = "recharge" then some .recharge
  else if token = "pause" then some .pause
  else if token = "stop" then some .stop
  else if token = "cancelled" then some .cancelled
  else if token = "hmUsrDock" then some .hmUsrDock
  else if token = "hmMidMsn" then some .hmMidMsn
  else if token = "hmPostMsn" then some .hmPostMsn
  else if token = "dockend" then some .dockend
  else if token = "stuck" then some .stuck
  else none

/-- Python membership/lookup of a JSON value in the `ROOMBA_STATES` dict:
only string values can match a key.  (Pure view, used in statements and
proofs; the membership test the state machine actually performs is
`phaseMembership` below, which can raise.) -/
def phaseLookup (p : Json) : Option RState :=
  match p with
  | .str s => ROOMBA_STATES s
  | _ => none

/-- Python truthiness of a JSON value (`if self.bin_full:` etc.). -/
def jsonTruthy (j : Json) : Bool :=
  match j with
  | .null => false
  | .bool b => b
  | .num n => n != 0
  | .str s => s != ""
  | .arr l => !l.isEmpty
  | .obj f => !f.isEmpty

/-- Python exceptions that can cross the modelled code paths. -/
inductive PyExc where
  | keyError
  | typeError
  | callbackError (n : Nat)
  deriving DecidableEq

/-- Python subscription `j[k]` with a string key: a dict either yields the
entry or raises `KeyError`; any non-dict raises `TypeError`. -/
def index (j : Json) (k : String) : Except PyExc Json :=
  match j with
  | .obj fields =>
    match lookupKey fields k with
    | some v => Except.ok v
    | none => Except.error .keyError
  | _ => Except.error .typeError

/-- The source's `phase not in ROOMBA_STATES` membership test together with
the subsequent `ROOMBA_STATES[phase]` lookup: a string phase looks up the
table (`ok none` = not a key, branch 13; `ok (some v)` = the mapped state,
branch 14); an unhashable phase value (a list or dict) makes Python's
`in`/`[]` raise `TypeError`; other hashable values are simply not keys. -/
def phaseMembership (p : Json) : Except PyExc (Option RState) :=
  match p with
  | .str s => Except.ok (ROOMBA_STATES s)
  | .arr _ => Except.error PyExc.typeError
  | .obj _ => Except.error PyExc.typeError
  | _ => Except.ok none

/-- Roomba error message: either a table entry or the synthesized
"Unknown Error number: N" fallback (modelled structurally, carrying the
offending code instead of the formatted f-string). -/
inductive ErrMsg where
  | table (msg : String)
  | synthesized (code : Json)

/-- The mutable attributes of the `Roomba` class (roomba.py `__init__`) that
the state-reconstruction path reads or writes. -/
structure Roomba where
  master_state : List (String × Json)
  cleanMissionStatus_phase : Json
  previous_cleanMissionStatus_phase : Json
  current_state : Option RState
  bin_full : Json
  co_ords_x : Json
  co_ords_y : Json
  co_ords_theta : Json
  error_code : Option Json
  error_message : Option ErrMsg
  exclude : String
  indent : Nat
  master_indent : Nat
  time : Int
  update_seconds : Int

/-- Initial attribute values set in `Roomba.__init__`. -/
def Roomba.init : Roomba where
  master_state := []
  cleanMissionStatus_phase := Json.str ""
  previous_cleanMissionStatus_phase := Json.str ""
  current_state := none
  bin_full := Json.bool false
  co_ords_x := Json.num 0
  co_ords_y := Json.num 0
  co_ords_theta := Json.num 180
  error_code := none
  error_message := none
  exclude := ""
  indent := 0
  master_indent := 0
  time := 0
  update_seconds := 300

/-- The probe
`self.master_state["state"]["reported"]["cleanMissionStatus"]["mssnM"]`
performed by the force-cancel rule of `update_state_machine`. -/
def mssnM_probe (ms : List (String × Json)) : Except PyExc Json := do
  let v1 ← index (Json.obj ms) "state"
  let v2 ← index v1 "reported"
  let v3 ← index v2 "cleanMissionStatus"
  index v3 "mssnM"

/-- `Roomba.update_state_machine` (roomba.py): drives `current_state` from
the stored mission phase, the status payload and auxiliary fields, as the
source's try-guarded force-cancel probe followed by the if/elif rule chain
and the optional `new_state` override.  Only `KeyError` is caught around the
probe; a `TypeError` (non-mapping on the probe path, or an unhashable
phase value in the `not in ROOMBA_STATES` membership test) propagates, as
does a `KeyError` from an unknown override token.  The source's
`current_mission` variable only affects logging and is not modelled. -/
def update_state_machine (r : Roomba) (new_state : Option String) :
    Except PyExc (Option RState) := do
  let phase := r.cleanMissionStatus_phase
  let cs0 ←
    match mssnM_probe r.master_state with
    | .error .keyError => pure r.current_state
    | .error e => throw e
    | .ok v =>
      if v.isStr "none" ∧ phase.isStr "charge" ∧
          (r.current_state = ROOMBA_STATES "pause" ∨
           r.current_state = ROOMBA_STATES "recharge") then
        pure (ROOMBA_STATES "cancelled")
      else
        pure r.current_state
  let cs1 ←
    if cs0 = ROOMBA_STATES "charge" ∧ phase.isStr "run" then
      pure (ROOMBA_STATES "new")
    else if cs0 = ROOMBA_STATES "run" ∧ phase.isStr "hmMidMsn" then
      pure (ROOMBA_STATES "dock")
    else if cs0 = ROOMBA_STATES "dock" ∧ phase.isStr "charge" then
      pure (ROOMBA_STATES "recharge")
    else if cs0 = ROOMBA_STATES "recharge" ∧ phase.isStr "charge" ∧
        jsonTruthy r.bin_full then
      pure (ROOMBA_STATES "pause")
    else if cs0 = ROOMBA_STATES "run" ∧ phase.isStr "charge" then
      pure (ROOMBA_STATES "recharge")
    else if cs0 = ROOMBA_STATES "recharge" ∧ phase.isStr "run" then
      pure (ROOMBA_STATES "pause")
    else if cs0 = ROOMBA_STATES "pause" ∧ phase.isStr "charge" then
      pure (ROOMBA_STATES "pause")
    else if cs0 = ROOMBA_STATES "charge" ∧ phase.isStr "charge" then
      pure cs0
    else if (cs0 = ROOMBA_STATES "stop" ∨ cs0 = ROOMBA_STATES "pause") ∧
        phase.isStr "hmUsrDock" then
      pure (ROOMBA_STATES "cancelled")
    else if ((cs0 = ROOMBA_STATES "hmUsrDock" ∨
          cs0 = ROOMBA_STATES "cancelled") ∧ phase.isStr "charge") ∨
        (cs0 = ROOMBA_STATES "hmPostMsn" ∧ phase.isStr "charge") then
      pure (ROOMBA_STATES "dockend")
    else if cs0 = ROOMBA_STATES "dockend" ∧ phase.isStr "charge" then
      pure (ROOMBA_STATES "charge")
    else
      match phaseMembership phase with
      | .error e => throw e
      | .ok none => pure none
      | .ok (some v) => pure (some v)
  match new_state with
  | none => pure cs1
  | some tok =>
    match ROOMBA_STATES tok with
    | some v => pure (some v)
    | none => throw .keyError

/-- Python `key.replace("state_reported_", "")`: removes every
(left-to-right, non-overlapping) occurrence of the redundant prefix. -/
def stripRedundant : List Char → List Char
  | 's' :: 't' :: 'a' :: 't' :: 'e' :: '_' :: 'r' :: 'e' :: 'p' :: 'o' ::
    'r' :: 't' :: 'e' :: 'd' :: '_' :: rest => stripRedundant rest
  | c :: rest => c :: stripRedundant rest
  | [] => []

/-- The flattened topic key: `prefix + "_" + key` when a prefix exists, with
the redundant `state_reported_` stripped. -/
def mutableKey (pfx : Option String) (key : String) : List Char :=
  stripRedundant
    (match pfx with
     | none => key.toList
     | some p => (p ++ "_" ++ key).toList)

/-- The list projection of `decode_topics`: dict elements explode into
`(key, value)` pairs (Python tuples, modelled as two-element arrays);
scalar elements pass through. -/
def flattenList (l : List Json) : List Json :=
  l.foldr
    (fun i acc =>
      match i with
      | .obj fields =>
        (fields.map (fun kv => Json.arr [Json.str kv.1, kv.2])) ++ acc
      | v => v :: acc) []

/-- The leaf handling of `Roomba.decode_topics`: list projection, prefix
joining, `state_reported_` stripping, and the side-channel extractions.
The x/y pose channels are swapped, the error lookup falls back to a
synthesized message, and — exactly as in the source — the mission-phase
check compares the raw loop `key`, not the flattened `mutable_key`. -/
def processLeaf (errTable : Json → Option String) (r : Roomba) (key : String)
    (value : Json) (pfx : Option String) : Roomba :=
  let mutable_value := match value with
    | .arr l => Json.arr (flattenList l)
    | v => v
  let mk := mutableKey pfx key
  let r := if mk = "pose_theta".toList then
    { r with co_ords_theta := mutable_value } else r
  let r := if mk = "pose_point_x".toList then
    { r with co_ords_y := mutable_value } else r
  let r := if mk = "pose_point_y".toList then
    { r with co_ords_x := mutable_value } else r
  let r := if mk = "bin_full".toList then
    { r with bin_full := mutable_value } else r
  let r := if mk = "cleanMissionStatus_error".toList then
    { r with
      error_code := some mutable_value
      error_message :=
        match errTable mutable_value with
        | some m => some (ErrMsg.table m)
        | none => some (ErrMsg.synthesized mutable_value) } else r
  let r := if key = "cleanMissionStatus_phase" then
    { r with
      previous_cleanMissionStatus_phase := r.cleanMissionStatus_phase
      cleanMissionStatus_phase := mutable_value } else r
  r

/-- The recursive walk of `Roomba.decode_topics` over a fragment: dict
values recurse with an extended prefix, leaves run the side-channel
extraction.  The static error-code table of const.py is not under src/ and
is passed abstractly as `errTable`. -/
def decode_topics_walk (errTable : Json → Option String) :
    Roomba → List (String × Json) → Option String → Roomba
  | r, [], _ => r
  | r, (key, Json.obj inner) :: rest, pfx =>
    let newPfx := match pfx with
      | none => key
      | some p => p ++ "_" ++ key
    decode_topics_walk errTable
      (decode_topics_walk errTable r inner (some newPfx)) rest pfx
  | r, (key, v) :: rest, pfx =>
    decode_topics_walk errTable (processLeaf errTable r key v pfx) rest pfx
  termination_by _ fields _ => sizeOf fields
  decreasing_by all_goals (simp_wf; try omega)

/-- `Roomba.decode_topics` as entered from `on_message` (prefix `None`):
walk the fragment, then run the state machine. -/
def decode_topics (errTable : Json → Option String) (r : Roomba)
    (fields : List (String × Json)) : Except PyExc Roomba := do
  let r1 := decode_topics_walk errTable r fields none
  let ns ← update_state_machine r1 none
  pure { r1 with current_state := ns }

/-- Raw MQTT payload bytes, abstracted to whether they decode as UTF-8 text
(`raw_payload.decode()` raises `UnicodeDecodeError` otherwise). -/
inductive Payload where
  | invalidUtf8
  | text (s : String)

/-- `_decode_payload` (roomba.py): UTF-8 decode, JSON parse, and the
top-level-object check; every failure yields `None`.  The external
`orjson.loads` is passed abstractly as `parse` (`none` = JSONDecodeError). -/
def decode_payload (parse : String → Option Json) (p : Payload) :
    Option Json :=
  match p with
  | .invalidUtf8 => none
  | .text s =>
    match parse s with
    | none => none
    | some j =>
      match j with
      | .obj fields => some (.obj fields)
      | _ => none

/-- An inbound MQTT message as seen by `Roomba.on_message`. -/
structure MqttMsg where
  topic : String
  payload : Payload

/-- The observer loop at the end of `Roomba.on_message`
(`for callback in self.on_message_callbacks: callback(decoded_message)`):
callbacks run in registration order; a raised exception aborts the loop and
propagates.  Returns how many callbacks were invoked and the outcome. -/
def run_callbacks : List (Json → Except PyExc Unit) → Json →
    Nat × Except PyExc Unit
  | [], _ => (0, Except.ok ())
  | c :: cs, m =>
    match c m with
    | .error e => (1, Except.error e)
    | .ok _ =>
      let r := run_callbacks cs m
      (r.1 + 1, r.2)

/-- The reconstruction step of `on_message` for a decoded fragment: merge
into `master_state`, walk the fragment, then update the state machine.  An
exception from the state machine propagates, but the mutations already made
to `self` persist (Python state is mutated in place before the raise). -/
def apply_fragment (errTable : Json → Option String) (r : Roomba)
    (fields : List (String × Json)) : Roomba × Except PyExc Unit :=
  let r2 := { r with master_state := dict_merge r.master_state fields }
  let r3 := decode_topics_walk errTable r2 fields none
  match update_state_machine r3 none with
  | .error e => (r3, Except.error e)
  | .ok ns => ({ r3 with current_state := ns }, Except.ok ())

/-- `Roomba.on_message` (roomba.py): topic exclusion, indent bookkeeping,
payload decoding (malformed messages are dropped), fragment application,
the 5-minute full re-publish, and the observer loop.  Returns the updated
attribute record, the number of observers invoked, and the exception
outcome of the handler (`ok` when nothing escaped). -/
def on_message (parse : String → Option Json)
    (errTable : Json → Option String)
    (callbacks : List (Json → Except PyExc Unit)) (now : Int) (r : Roomba)
    (msg : MqttMsg) : Roomba × Nat × Except PyExc Unit :=
  if r.exclude ≠ "" ∧ r.exclude.toList <:+: msg.topic.toList then
    (r, 0, Except.ok ())
  else
    let r1 := if r.indent = 0 then
      { r with master_indent := max r.master_indent msg.topic.length }
      else r
    match decode_payload parse msg.payload with
    | none => (r1, 0, Except.ok ())
    | some (Json.obj fields) =>
      match apply_fragment errTable r1 fields with
      | (r4, Except.error e) => (r4, 0, Except.error e)
      | (r4, Except.ok _) =>
        if now - r4.time > r4.update_seconds then
          let r5 := decode_topics_walk errTable r4 r4.master_state none
          match update_state_machine r5 none with
          | .error e => (r5, 0, Except.error e)
          | .ok ns2 =>
            let r6 := { r5 with current_state := ns2, time := now }
            let cb := run_callbacks callbacks (Json.obj fields)
            (r6, cb.1, cb.2)
        else
          let cb := run_callbacks callbacks (Json.obj fields)
          (r4, cb.1, cb.2)
    | some _ => (r1, 0, Except.ok ())

/-- Python `value.split("-")` for a one-character separator: maximal runs
between separator occurrences, keeping empty parts (`"".split("-") == [""]`,
`"a-".split("-") == ["a", ""]`). -/
def splitOnChar (sep : Char) : List Char → List (List Char)
  | [] => [[]]
  | c :: rest =>
    if c = sep then [] :: splitOnChar sep rest
    else
      match splitOnChar sep rest with
      | [] => [[c]]
      | p :: ps => (c :: p) :: ps

theorem splitOnChar_ne_nil (sep : Char) (l : List Char) :
    splitOnChar sep l ≠ [] := by
  cases l with
  | nil => simp [splitOnChar]
  | cons c rest =>
    by_cases h : c = sep
    · simp [splitOnChar, h]
    · simp only [splitOnChar, if_neg h]
      cases splitOnChar sep rest <;> simp

theorem length_splitOnChar (sep : Char) (l : List Char) :
    (splitOnChar sep l).length = l.count sep + 1 := by
  induction l with
  | nil => simp [splitOnChar]
  | cons c rest ih =>
    by_cases h : c = sep
    · subst h
      simp [splitOnChar, List.count_cons, ih]
    · simp only [splitOnChar, if_neg h]
      rcases hs : splitOnChar sep rest with _ | ⟨p, ps⟩
      · exact absurd hs (splitOnChar_ne_nil sep rest)
      · have := ih
        rw [hs] at this
        simp only [List.length_cons] at this ⊢
        simp [List.count_cons, h, this]

/-- `RoombaInfo.hostname_validator` (roomba_info.py): requires a dash, a
non-empty blid after the dash, and a known model prefix (case-insensitive
`roomba`/`irobot`).  `model_name, blid = value.split("-")` raises a
`ValueError` when the split does not produce exactly two parts, i.e. when
the hostname holds more than one dash. -/
def hostname_validator (value : List Char) : Except String (List Char) :=
  if ¬ value.contains '-' then
    Except.error "hostname does not contain a dash"
  else
    match splitOnChar '-' value with
    | [model_name, blid] =>
      if blid = [] then Except.error "empty blid"
      else if ¬ (model_name.map Char.toLower = "roomba".toList ∨
          model_name.map Char.toLower = "irobot".toList) then
        Except.error "unsupported model in hostname"
      else Except.ok value
    | _ => Except.error "values to unpack"

/-- Device descriptor (`RoombaInfo`, roomba_info.py), with the JSON field
aliases `sw`→firmware, `robotname`→robot_name, `cap`→capabilities. -/
structure RoombaInfo where
  hostname : List Char
  firmware : String
  ip : String
  mac : String
  robot_name : String
  sku : String
  capabilities : List (String × Json)
  password : Option String

/-- The exception groups `_decode_data` catches around
`RoombaInfo.from_json`: JSON decode failure, a missing required field, and
every other (de)serialization failure. -/
inductive ParseErr where
  | jsonDecodeError
  | missingField
  | invalidField
  deriving DecidableEq

/-- A required string field of the descriptor. -/
def getStrField (fields : List (String × Json)) (k : String) :
    Except ParseErr String :=
  match lookupKey fields k with
  | none => Except.error .missingField
  | some (.str s) => Except.ok s
  | some _ => Except.error .invalidField

/-- Modelled from the spec: `RoombaInfo.from_json` (the mashumaro/pydantic
deserialization driven by the field declarations in roomba_info.py, not
itself under src/) requires the aliased fields `hostname`, `sw`, `ip`,
`mac`, `robotname`, `sku`, `cap` on a JSON object; a missing field or a
non-object input is an error, and `password` is optional. -/
def infoFromJson (j : Json) : Except ParseErr RoombaInfo :=
  match j with
  | .obj fields => do
    let hostname ← getStrField fields "hostname"
    let firmware ← getStrField fields "sw"
    let ip ← getStrField fields "ip"
    let mac ← getStrField fields "mac"
    let robot_name ← getStrField fields "robotname"
    let sku ← getStrField fields "sku"
    let capabilities ←
      match lookupKey fields "cap" with
      | none => Except.error ParseErr.missingField
      | some (.obj f) => Except.ok f
      | some _ => Except.error ParseErr.invalidField
    let password :=
      match lookupKey fields "password" with
      | some (.str s) => some s
      | _ => none
    Except.ok
      { hostname := hostname.toList, firmware, ip, mac, robot_name, sku,
        capabilities, password }
  | _ => Except.error .invalidField

/-- `_decode_data` (discovery.py): UTF-8 decode (noise is dropped),
self-filtering of the probe token, JSON parsing/deserialization with every
listed exception collapsed to `None`, and hostname validation (the
module-level `validate_hostname` is not under src/; the validation logic is
`hostname_validator` above).  The external `orjson` parse is passed
abstractly as `parse`. -/
def decode_data (parse : String → Option Json) (raw : Payload) :
    Option RoombaInfo :=
  match raw with
  | .invalidUtf8 => none
  | .text s =>
    if s = "irobotmcs" then none
    else
      match parse s with
      | none => none
      | some j =>
        match infoFromJson j with
        | .error _ => none
        | .ok info =>
          match hostname_validator info.hostname with
          | .error _ => none
          | .ok _ => some info

/-- `MAX_CONNECTION_RETRIES` (remote_client.py). -/
def MAX_CONNECTION_RETRIES : Nat := 3

/-- The attempt loop of `RoombaRemoteClient.connect` (remote_client.py),
starting at `attempt`.  `outcome n = true` models an underlying
`_open_mqtt_connection()` call that does not raise on the n-th attempt.
Returns how many attempts were made in total and the reported result. -/
def connect_from (outcome : Nat → Bool) (attempt : Nat) : Nat × Bool :=
  if attempt ≤ MAX_CONNECTION_RETRIES then
    if outcome attempt then (attempt, true)
    else connect_from outcome (attempt + 1)
  else (attempt - 1, false)
  termination_by MAX_CONNECTION_RETRIES + 1 - attempt

/-- `RoombaRemoteClient.connect`: attempts start at 1. -/
def connect (outcome : Nat → Bool) : Nat × Bool := connect_from outcome 1

/-- The fixed 7-byte "unsupported" sentinel (getpassword.py). -/
def UNSUPPORTED_MAGIC : List Nat := [0xf0, 0x05, 0xef, 0xcc, 0x3b, 0x29, 0x03]

/-- One `socket.recv` outcome during the credential exchange: a data chunk
(`[]` = peer closed), a `socket.timeout`, or an `OSError`. -/
inductive Recv where
  | data (chunk : List Nat)
  | timeout
  | ioerror

/-- `RoombaPassword._get_response` (getpassword.py): accumulate chunks until
the buffer holds the declared length plus two; a zero-length chunk or a
chunk equal to the sentinel stops reading; the declared length is byte 1 of
the accumulated buffer; timeout or I/O error yields `None`. -/
def get_response (events : List Recv) (raw : List Nat) (rl : Nat) :
    Option (List Nat) :=
  if raw.length ≥ rl + 2 then some raw
  else
    match events with
    | [] => none
    | .timeout :: _ => none
    | .ioerror :: _ => none
    | .data c :: rest =>
      if c.length = 0 then some raw
      else if c = UNSUPPORTED_MAGIC then some raw
      else
        let raw2 := raw ++ c
        let rl2 := if raw2.length ≥ 2 then raw2.getD 1 0 else rl
        get_response rest raw2 rl2

/-- Trailing-NUL stripping (`.rstrip("\x00")`), at byte level. -/
def rstrip0 (l : List Nat) : List Nat :=
  (l.reverse.dropWhile (fun b => b = 0)).reverse

/-- `_decode_password` (getpassword.py): drop the 7 header bytes and strip
trailing NUL padding (credential modelled as its bytes). -/
def decode_password (data : List Nat) : List Nat := rstrip0 (data.drop 7)

/-- `RoombaPassword.get_password` (getpassword.py): refused connection
yields `None`; an empty (falsy) accumulated response yields `None`;
otherwise the decoded credential. -/
def get_password (connect_refused : Bool) (events : List Recv) :
    Option (List Nat) :=
  if connect_refused then none
  else
    match get_response events [] 35 with
    | none => none
    | some resp =>
      if resp.length = 0 then none else some (decode_password resp)

theorem index_cases (j : Json) (k : String) :
    index j k = Except.error PyExc.keyError ∨
    index j k = Except.error PyExc.typeError ∨
    ∃ v, index j k = Except.ok v := by
  cases j <;> simp [index]
  case obj fields => cases lookupKey fields k <;> simp

theorem mssnM_probe_cases (ms : List (String × Json)) :
    mssnM_probe ms = Except.error PyExc.keyError ∨
    mssnM_probe ms = Except.error PyExc.typeError ∨
    ∃ v, mssnM_probe ms = Except.ok v := by
  unfold mssnM_probe
  rcases index_cases (Json.obj ms) "state" with h | h | ⟨v1, h⟩ <;>
    simp [h, bind, Except.bind]
  rcases index_cases v1 "reported" with h2 | h2 | ⟨v2, h2⟩ <;> simp [h2]
  rcases index_cases v2 "cleanMissionStatus" with h3 | h3 | ⟨v3, h3⟩ <;>
    simp [h3]
  rcases index_cases v3 "mssnM" with h4 | h4 | ⟨v4, h4⟩ <;> simp [h4]

/-- An unknown phase value can satisfy none of the phase-token comparisons
used by the transition rules. -/
theorem phase_unknown_no_rule (p : Json) (h : phaseLookup p = none) :
    p.isStr "charge" = false ∧ p.isStr "run" = false ∧
    p.isStr "hmMidMsn" = false ∧ p.isStr "hmUsrDock" = false := by
  cases p with
  | str s =>
    simp only [phaseLookup] at h
    simp only [Json.isStr, beq_eq_false_iff_ne, ne_eq,
      decide_eq_false_iff_not]
    refine ⟨?_, ?_, ?_, ?_⟩ <;> (rintro rfl; simp [ROOMBA_STATES] at h)
  | null => simp [Json.isStr]
  | bool b => simp [Json.isStr]
  | num n => simp [Json.isStr]
  | arr l => simp [Json.isStr]
  | obj f => simp [Json.isStr]

/-- A machine state satisfying the force-cancel rule's conditions: paused,
status payload reporting no active mission, phase `charge`. -/
def c1_state : Roomba :=
  { Roomba.init with
    master_state := [("state", Json.obj [("reported", Json.obj
      [("cleanMissionStatus", Json.obj [("mssnM", Json.str "none")])])])]
    cleanMissionStatus_phase := Json.str "charge"
    current_state := some RState.pause }

/-- C1 (counterexample): with current state `pause`, `mssnM == "none"` and
phase `charge`, the update does NOT end in `cancelled`: the force-cancel
rule fires first, but the rule chain then still runs on the updated state
and `cancelled` + phase `charge` transitions on to `dockend`. -/
theorem c1_counterexample :
    mssnM_probe c1_state.master_state = Except.ok (Json.str "none") ∧
    c1_state.cleanMissionStatus_phase = Json.str "charge" ∧
    c1_state.current_state = some RState.pause ∧
    update_state_machine c1_state none = Except.ok (some RState.dockend) ∧
    Except.ok (some RState.dockend) ≠
      (Except.ok (some RState.cancelled) : Except PyExc (Option RState)) := by
  refine ⟨rfl, rfl, rfl, rfl, ?_⟩
  simp

/-- C1 (amended): whenever the status payload reports `mssnM == "none"`,
the phase is `charge` and the current state is `pause` or `recharge`, the
force-cancel rule fires but the remaining rules still run on the updated
state, so the update always results in `dockend` (via `cancelled`), not in
`cancelled`. -/
theorem c1_amended (r : Roomba)
    (hprobe : mssnM_probe r.master_state = Except.ok (Json.str "none"))
    (hphase : r.cleanMissionStatus_phase = Json.str "charge")
    (hcs : r.current_state = some RState.pause ∨
      r.current_state = some RState.recharge) :
    update_state_machine r none = Except.ok (some RState.dockend) := by
  rcases hcs with h | h <;>
    simp [update_state_machine, hprobe, hphase, h, ROOMBA_STATES,
      Json.isStr, phaseLookup, pure, Except.pure, bind, Except.bind]

/-- C1 (witness): the amended claim at the concrete paused state. -/
theorem c1_witness :
    update_state_machine c1_state none = Except.ok (some RState.dockend) :=
  c1_amended c1_state rfl rfl (Or.inl rfl)

/-- A state in which the force-cancel probe crosses a non-mapping:
`master_state["state"]` is the number 5, so `["reported"]` raises an
uncaught `TypeError`; the stored phase is moreover an unknown token. -/
def c5_state : Roomba :=
  { Roomba.init with
    master_state := [("state", Json.num 5)]
    cleanMissionStatus_phase := Json.str "xyz" }

/-- C5 (counterexample): an update with an unknown phase token (and no
transition rule matching) can still throw: the force-cancel probe hits a
non-mapping and the resulting `TypeError` is not caught (only `KeyError`
is), so the update does not return `unknown` — it raises. -/
theorem c5_counterexample :
    phaseLookup c5_state.cleanMissionStatus_phase = none ∧
    update_state_machine c5_state none = Except.error PyExc.typeError ∧
    Except.error PyExc.typeError ≠
      (Except.ok none : Except PyExc (Option RState)) := by
  refine ⟨rfl, rfl, ?_⟩
  simp

/-- C5 (amended): when the stored phase is a string that is not a known
phase token, no transition rule can match; provided the force-cancel probe
raises at most `KeyError` (does not cross a non-mapping), the update does
not throw: it returns with the mission state set to the unknown value
(`None`).  When instead the stored phase is an unhashable list value
(reachable via a `cleanMissionStatus_phase` payload), the membership test
`phase not in ROOMBA_STATES` raises an uncaught `TypeError`. -/
theorem c5_amended :
    (∀ (r : Roomba) (s : String),
      r.cleanMissionStatus_phase = Json.str s →
      ROOMBA_STATES s = none →
      mssnM_probe r.master_state ≠ Except.error PyExc.typeError →
      update_state_machine r none = Except.ok none) ∧
    (∀ (r : Roomba) (l : List Json),
      r.cleanMissionStatus_phase = Json.arr l →
      update_state_machine r none = Except.error PyExc.typeError) := by
  constructor
  · intro r s hstr hukn hprobe
    obtain ⟨h1, h2, h3, h4⟩ := phase_unknown_no_rule (Json.str s)
      (by simpa [phaseLookup] using hukn)
    rcases mssnM_probe_cases r.master_state with hp | hp | ⟨v, hp⟩
    · simp [update_state_machine, hp, h1, h2, h3, h4, hstr, hukn,
        phaseMembership, pure, Except.pure, bind, Except.bind]
    · exact absurd hp hprobe
    · simp [update_state_machine, hp, h1, h2, h3, h4, hstr, hukn,
        phaseMembership, pure, Except.pure, bind, Except.bind]
  · intro r l harr
    obtain ⟨h1, h2, h3, h4⟩ := phase_unknown_no_rule (Json.arr l) rfl
    rcases mssnM_probe_cases r.master_state with hp | hp | ⟨v, hp⟩
    · simp [update_state_machine, hp, h1, h2, h3, h4, harr,
        phaseMembership, pure, Except.pure, bind, Except.bind, throw,
        throwThe, MonadExceptOf.throw]
    · simp [update_state_machine, hp, bind, Except.bind, throw,
        throwThe, MonadExceptOf.throw]
    · simp [update_state_machine, hp, h1, h2, h3, h4, harr,
        phaseMembership, pure, Except.pure, bind, Except.bind, throw,
        throwThe, MonadExceptOf.throw]

/-- C5 (witness): unknown string phase token over an empty tree (probe
raises `KeyError`, which is caught): the update returns the unknown state;
and a list-valued phase makes the update raise `TypeError`. -/
theorem c5_witness :
    update_state_machine
      { Roomba.init with cleanMissionStatus_phase := Json.str "xyz" } none =
      Except.ok none ∧
    update_state_machine
      { Roomba.init with
        cleanMissionStatus_phase := Json.arr [Json.num 1] } none =
      Except.error PyExc.typeError :=
  ⟨c5_amended.1 _ "xyz" rfl rfl
    (by intro h; simp [mssnM_probe, index, lookupKey, bind, Except.bind] at h),
   c5_amended.2 _ [Json.num 1] rfl⟩

/-- C4: merging a fragment into the state tree is recursive and biased
toward the fragment: per key, two mappings merge recursively, anything else
is replaced/created by the fragment's value, and keys absent from the
fragment keep the tree's value; including the two concrete examples from
the spec ({"a":{"x":1}} then {"a":{"y":2}}, and {"a":1} then
{"a":{"x":1}}). -/
theorem c4_theorem :
    (∀ dct mdct : List (String × Json), (mdct.map Prod.fst).Nodup →
      ∀ q, lookupKey (dict_merge dct mdct) q =
        match lookupKey mdct q with
        | none => lookupKey dct q
        | some v => some (mergedValue (lookupKey dct q) v)) ∧
    dict_merge (dict_merge [] [("a", Json.obj [("x", Json.num 1)])])
      [("a", Json.obj [("y", Json.num 2)])] =
      [("a", Json.obj [("x", Json.num 1), ("y", Json.num 2)])] ∧
    dict_merge (dict_merge [] [("a", Json.num 1)])
      [("a", Json.obj [("x", Json.num 1)])] =
      [("a", Json.obj [("x", Json.num 1)])] := by
  refine ⟨fun dct mdct h q => lookupKey_dict_merge mdct dct h q, ?_, ?_⟩ <;>
    simp [dict_merge, setKey, lookupKey]

/-- C4 (witness): the per-key characterization at a concrete tree and
fragment. -/
theorem c4_witness :
    lookupKey (dict_merge [("b", Json.num 3)] [("a", Json.num 1)]) "a" =
      some (Json.num 1) := by
  have h := c4_theorem.1 [("b", Json.num 3)] [("a", Json.num 1)]
    (by decide) "a"
  simpa [lookupKey, mergedValue] using h

/-- C8: the retrying connect makes at most 3 attempts: an always-failing
transport is attempted exactly 3 times and failure is reported; a transport
succeeding on attempt n ≤ 3 reports success after exactly n attempts. -/
theorem c8_theorem :
    (∀ outcome : Nat → Bool, (∀ n, outcome n = false) →
      connect outcome = (3, false)) ∧
    (∀ (outcome : Nat → Bool) (n : Nat), 1 ≤ n → n ≤ 3 →
      outcome n = true → (∀ m, 1 ≤ m → m < n → outcome m = false) →
      connect outcome = (n, true)) := by
  constructor
  · intro outcome h
    simp [connect, connect_from, MAX_CONNECTION_RETRIES, h 1, h 2, h 3]
  · intro outcome n h1 h3 hs hf
    interval_cases n
    · simp [connect, connect_from, MAX_CONNECTION_RETRIES, hs]
    · simp [connect, connect_from, MAX_CONNECTION_RETRIES, hs,
        hf 1 (by omega) (by omega)]
    · simp [connect, connect_from, MAX_CONNECTION_RETRIES, hs,
        hf 1 (by omega) (by omega), hf 2 (by omega) (by omega)]

/-- C8 (witness): an always-failing transport and one succeeding on the
second attempt. -/
theorem c8_witness :
    connect (fun _ => false) = (3, false) ∧
    connect (fun n => n == 2) = (2, true) := by
  constructor
  · exact c8_theorem.1 _ (fun _ => rfl)
  · refine c8_theorem.2 _ 2 (by decide) (by decide) (by decide) ?_
    intro m h1 h2
    simp only [beq_eq_false_iff_ne, ne_eq]
    omega

/-- C10: any hostname containing two or more dashes is rejected by the
validator (the two-name unpacking of `value.split("-")` raises
`ValueError`), whatever the model prefix; and a hostname can only validate
when it contains exactly one dash. -/
theorem c10_theorem :
    (∀ value : List Char, 2 ≤ value.count '-' →
      hostname_validator value = Except.error "values to unpack") ∧
    (∀ (value ok : List Char), hostname_validator value = Except.ok ok →
      value.count '-' = 1) := by
  constructor
  · intro value h2
    have hmem : '-' ∈ value := by
      by_contra hn
      rw [List.count_eq_zero_of_not_mem hn] at h2
      omega
    have hlen := length_splitOnChar '-' value
    rcases hsp : splitOnChar '-' value with _ | ⟨a, _ | ⟨b, _ | ⟨c, rest⟩⟩⟩
    · exact absurd hsp (splitOnChar_ne_nil '-' value)
    · rw [hsp] at hlen
      simp at hlen
      omega
    · rw [hsp] at hlen
      simp at hlen
      omega
    · simp [hostname_validator, hmem, hsp]
  · intro value ok h
    by_cases hmem : '-' ∈ value
    · have hlen := length_splitOnChar '-' value
      rcases hsp : splitOnChar '-' value with _ | ⟨a, _ | ⟨b, _ | ⟨c, rest⟩⟩⟩
      · exact absurd hsp (splitOnChar_ne_nil '-' value)
      · simp [hostname_validator, hmem, hsp] at h
      · rw [hsp] at hlen
        simp at hlen
        omega
      · simp [hostname_validator, hmem, hsp] at h
    · simp [hostname_validator, hmem] at h

/-- C10 (witness): `"Roomba-ABC-DEF"` has two dashes, a known model prefix
and a non-empty tail, and is rejected. -/
theorem c10_witness :
    2 ≤ ("Roomba-ABC-DEF".toList.count '-') ∧
    hostname_validator "Roomba-ABC-DEF".toList =
      Except.error "values to unpack" :=
  ⟨by decide, c10_theorem.1 _ (by decide)⟩

/-- C9 (counterexample): the sentinel test is applied per received chunk,
not to the accumulated bytes.  When the 7 sentinel bytes arrive split
across two `recv` chunks, the accumulated response equals the sentinel
exactly, yet retrieval returns the (empty) decoded string, not absent. -/
theorem c9_counterexample :
    get_response [Recv.data [0xf0, 0x05, 0xef],
      Recv.data [0xcc, 0x3b, 0x29, 0x03]] [] 35 = some UNSUPPORTED_MAGIC ∧
    get_password false [Recv.data [0xf0, 0x05, 0xef],
      Recv.data [0xcc, 0x3b, 0x29, 0x03]] = some [] ∧
    (some [] : Option (List Nat)) ≠ none := by
  refine ⟨rfl, rfl, by simp⟩

/-- C9 (amended): when a single received chunk equals the unsupported
sentinel, reading stops with nothing accumulated and retrieval returns
absent; a socket timeout or I/O error during the exchange returns absent;
otherwise the credential is the accumulated response with its first 7 bytes
removed and trailing NUL padding stripped.  (Only when the sentinel arrives
split across chunks does retrieval return an empty credential instead of
absent.) -/
theorem c9_amended :
    (∀ (events : List Recv) (rl : Nat),
      get_response (Recv.data UNSUPPORTED_MAGIC :: events) [] rl = some [] ∧
      get_password false (Recv.data UNSUPPORTED_MAGIC :: events) = none) ∧
    (∀ (events : List Recv) (raw : List Nat) (rl : Nat),
      raw.length < rl + 2 →
      get_response (Recv.timeout :: events) raw rl = none ∧
      get_response (Recv.ioerror :: events) raw rl = none) ∧
    (∀ events, get_response events [] 35 = none →
      get_password false events = none) ∧
    (∀ events resp, get_response events [] 35 = some resp → resp ≠ [] →
      get_password false events = some (rstrip0 (resp.drop 7))) := by
  refine ⟨?_, ?_, ?_, ?_⟩
  · intro events rl
    have hstep : ∀ rl2 : Nat,
        get_response (Recv.data UNSUPPORTED_MAGIC :: events) [] rl2 =
          some [] := by
      intro rl2
      rw [get_response]
      rw [if_neg (by simp)]
      simp [UNSUPPORTED_MAGIC]
    exact ⟨hstep rl, by simp [get_password, hstep 35]⟩
  · intro events raw rl h
    constructor <;> (rw [get_response]; rw [if_neg (by omega)])
  · intro events h
    simp [get_password, h]
  · intro events resp h hne
    simp [get_password, h, hne, decode_password, List.length_eq_zero]

/-- C9 (witness): a whole-chunk sentinel yields absent; a timeout yields
absent; a normal NUL-padded response decodes to its credential bytes. -/
theorem c9_witness :
    get_password false [Recv.data UNSUPPORTED_MAGIC] = none ∧
    get_password false [Recv.timeout] = none ∧
    get_password false [Recv.data [1, 5, 65, 66, 0, 0, 0, 67, 0, 0]] =
      some [67] := by
  refine ⟨(c9_amended.1 [] 35).2, ?_, ?_⟩
  · exact c9_amended.2.2.1 [Recv.timeout] rfl
  · exact c9_amended.2.2.2 [Recv.data [1, 5, 65, 66, 0, 0, 0, 67, 0, 0]]
      [1, 5, 65, 66, 0, 0, 0, 67, 0, 0] rfl (by simp)

theorem infoFromJson_not_obj (j : Json) (h : ∀ f, j ≠ .obj f) :
    infoFromJson j = Except.error ParseErr.invalidField := by
  cases j with
  | obj f => exact absurd rfl (h f)
  | null => rfl
  | bool b => rfl
  | num n => rfl
  | str s => rfl
  | arr l => rfl

/-- C7: for every received discovery datagram, decoding returns absent when
the bytes are not valid UTF-8 text, when the text equals the probe token
`"irobotmcs"`, when it does not parse as JSON, when the JSON is not an
object, when a required descriptor field is missing (or any other
deserialization error occurs), or when the hostname fails validation; a
fully valid descriptor is returned.  Decoding is total, so it never
raises. -/
theorem c7_theorem (parse : String → Option Json) :
    decode_data parse .invalidUtf8 = none ∧
    decode_data parse (.text "irobotmcs") = none ∧
    (∀ s, parse s = none → decode_data parse (.text s) = none) ∧
    (∀ s j, parse s = some j → (∀ f, j ≠ .obj f) →
      decode_data parse (.text s) = none) ∧
    infoFromJson (Json.obj []) = Except.error ParseErr.missingField ∧
    (∀ s j e, parse s = some j → infoFromJson j = .error e →
      decode_data parse (.text s) = none) ∧
    (∀ s j info msg, parse s = some j → infoFromJson j = .ok info →
      hostname_validator info.hostname = .error msg →
      decode_data parse (.text s) = none) ∧
    (∀ s j info v, s ≠ "irobotmcs" → parse s = some j →
      infoFromJson j = .ok info → hostname_validator info.hostname = .ok v →
      decode_data parse (.text s) = some info) := by
  refine ⟨rfl, by simp [decode_data], ?_, ?_, by rfl, ?_, ?_, ?_⟩
  · intro s hp
    by_cases hs : s = "irobotmcs" <;> simp [decode_data, hs, hp]
  · intro s j hp hno
    by_cases hs : s = "irobotmcs" <;>
      simp [decode_data, hs, hp, infoFromJson_not_obj j hno]
  · intro s j e hp he
    by_cases hs : s = "irobotmcs" <;> simp [decode_data, hs, hp, he]
  · intro s j info msg hp hi hv
    by_cases hs : s = "irobotmcs" <;> simp [decode_data, hs, hp, hi, hv]
  · intro s j info v hs hp hi hv
    simp [decode_data, hs, hp, hi, hv]

/-- C7 (witness): a parser that recognizes one complete descriptor; the
valid descriptor is returned and garbage is absent. -/
theorem c7_witness :
    decode_data
      (fun s => if s = "good" then
        some (Json.obj [("hostname", Json.str "Roomba-XYZ"),
          ("sw", Json.str "1.2.3"), ("ip", Json.str "10.0.0.2"),
          ("mac", Json.str "aa:bb"), ("robotname", Json.str "t"),
          ("sku", Json.str "9"), ("cap", Json.obj [])])
        else none)
      (.text "good") =
      some { hostname := "Roomba-XYZ".toList, firmware := "1.2.3",
             ip := "10.0.0.2", mac := "aa:bb", robot_name := "t", sku := "9",
             capabilities := [], password := none } ∧
    decode_data
      (fun s => if s = "good" then
        some (Json.obj [("hostname", Json.str "Roomba-XYZ"),
          ("sw", Json.str "1.2.3"), ("ip", Json.str "10.0.0.2"),
          ("mac", Json.str "aa:bb"), ("robotname", Json.str "t"),
          ("sku", Json.str "9"), ("cap", Json.obj [])])
        else none)
      (.text "bad") = none := by
  constructor
  · exact (c7_theorem _).2.2.2.2.2.2.2 "good" _ _ "Roomba-XYZ".toList
      (by decide) rfl rfl rfl
  · exact (c7_theorem _).2.2.1 "bad" rfl

/-- C2 (code bug): for the nested telemetry fragment
`{"state":{"reported":{"cleanMissionStatus":{"phase":"charge"}}}}` the
flattened key is `cleanMissionStatus_phase`, but the source compares the
raw loop key (`"phase"`) against `"cleanMissionStatus_phase"`, so the
mission-phase side channel is never updated: the stored phase stays `""`
instead of becoming `"charge"`.  Only a payload whose literal key is
`cleanMissionStatus_phase` updates it. -/
theorem c2_theorem :
    (decode_topics (fun _ => none) Roomba.init
      [("state", Json.obj [("reported", Json.obj
        [("cleanMissionStatus", Json.obj
          [("phase", Json.str "charge")])])])] =
      Except.ok Roomba.init) ∧
    Roomba.init.cleanMissionStatus_phase = Json.str "" ∧
    Json.str "" ≠ Json.str "charge" ∧
    (decode_topics (fun _ => none) Roomba.init
      [("cleanMissionStatus_phase", Json.str "charge")] =
      Except.ok { Roomba.init with
        cleanMissionStatus_phase := Json.str "charge"
        current_state := some RState.charge }) := by
  refine ⟨?_, rfl, by simp, ?_⟩
  · have hwalk : decode_topics_walk (fun _ => none) Roomba.init
        [("state", Json.obj [("reported", Json.obj
          [("cleanMissionStatus", Json.obj
            [("phase", Json.str "charge")])])])] none = Roomba.init := by
      simp only [decode_topics_walk]
      rfl
    simp only [decode_topics, hwalk]
    rfl
  · have hwalk : decode_topics_walk (fun _ => none) Roomba.init
        [("cleanMissionStatus_phase", Json.str "charge")] none =
        { Roomba.init with
          cleanMissionStatus_phase := Json.str "charge" } := by
      simp only [decode_topics_walk]
      rfl
    simp only [decode_topics, hwalk]
    rfl

theorem decode_payload_none_of_malformed (parse : String → Option Json)
    (p : Payload)
    (h : p = .invalidUtf8 ∨ (∃ s, p = .text s ∧ parse s = none) ∨
      (∃ s j, p = .text s ∧ parse s = some j ∧ ∀ f, j ≠ Json.obj f)) :
    decode_payload parse p = none := by
  rcases h with h | ⟨s, rfl, hp⟩ | ⟨s, j, rfl, hp, hno⟩
  · subst h; rfl
  · simp [decode_payload, hp]
  · cases j with
    | obj f => exact absurd rfl (hno f)
    | null => simp [decode_payload, hp]
    | bool b => simp [decode_payload, hp]
    | num n => simp [decode_payload, hp]
    | str t => simp [decode_payload, hp]
    | arr l => simp [decode_payload, hp]

/-- C6: a payload that is not valid UTF-8, not valid JSON, or whose top
level is not an object is dropped: message handling returns without an
exception, invokes no observer, and leaves the state tree, the mission
state and all side-channel fields exactly as they were. -/
theorem c6_theorem (parse : String → Option Json)
    (errT : Json → Option String) (cbs : List (Json → Except PyExc Unit))
    (now : Int) (r : Roomba) (msg : MqttMsg)
    (hmal : msg.payload = .invalidUtf8 ∨
      (∃ s, msg.payload = .text s ∧ parse s = none) ∨
      (∃ s j, msg.payload = .text s ∧ parse s = some j ∧
        ∀ f, j ≠ Json.obj f)) :
    (on_message parse errT cbs now r msg).1.master_state = r.master_state ∧
    (on_message parse errT cbs now r msg).1.cleanMissionStatus_phase =
      r.cleanMissionStatus_phase ∧
    (on_message parse errT cbs now r msg).1.previous_cleanMissionStatus_phase
      = r.previous_cleanMissionStatus_phase ∧
    (on_message parse errT cbs now r msg).1.current_state =
      r.current_state ∧
    (on_message parse errT cbs now r msg).1.bin_full = r.bin_full ∧
    (on_message parse errT cbs now r msg).1.co_ords_x = r.co_ords_x ∧
    (on_message parse errT cbs now r msg).1.co_ords_y = r.co_ords_y ∧
    (on_message parse errT cbs now r msg).1.co_ords_theta =
      r.co_ords_theta ∧
    (on_message parse errT cbs now r msg).1.error_code = r.error_code ∧
    (on_message parse errT cbs now r msg).1.error_message =
      r.error_message ∧
    (on_message parse errT cbs now r msg).2.1 = 0 ∧
    (on_message parse errT cbs now r msg).2.2 = Except.ok () := by
  have hdec := decode_payload_none_of_malformed parse msg.payload hmal
  by_cases hexcl : r.exclude ≠ "" ∧ r.exclude.toList <:+: msg.topic.toList
  · obtain ⟨h1, h2⟩ := hexcl
    unfold on_message
    rw [if_pos ⟨h1, h2⟩]
    simp
  · unfold on_message
    rw [if_neg hexcl, hdec]
    simp [apply_ite (Roomba.master_state),
      apply_ite (Roomba.cleanMissionStatus_phase),
      apply_ite (Roomba.previous_cleanMissionStatus_phase),
      apply_ite (Roomba.current_state), apply_ite (Roomba.bin_full),
      apply_ite (Roomba.co_ords_x), apply_ite (Roomba.co_ords_y),
      apply_ite (Roomba.co_ords_theta), apply_ite (Roomba.error_code),
      apply_ite (Roomba.error_message)]

/-- C6 (witness): a non-JSON text payload on the fresh state. -/
theorem c6_witness :
    (on_message (fun _ => none) (fun _ => none) [] 0 Roomba.init
      ⟨"t", Payload.text "["⟩).1.master_state = Roomba.init.master_state ∧
    (on_message (fun _ => none) (fun _ => none) [] 0 Roomba.init
      ⟨"t", Payload.text "["⟩).1.cleanMissionStatus_phase =
      Roomba.init.cleanMissionStatus_phase ∧
    (on_message (fun _ => none) (fun _ => none) [] 0 Roomba.init
      ⟨"t", Payload.text "["⟩).1.previous_cleanMissionStatus_phase =
      Roomba.init.previous_cleanMissionStatus_phase ∧
    (on_message (fun _ => none) (fun _ => none) [] 0 Roomba.init
      ⟨"t", Payload.text "["⟩).1.current_state =
      Roomba.init.current_state ∧
    (on_message (fun _ => none) (fun _ => none) [] 0 Roomba.init
      ⟨"t", Payload.text "["⟩).1.bin_full = Roomba.init.bin_full ∧
    (on_message (fun _ => none) (fun _ => none) [] 0 Roomba.init
      ⟨"t", Payload.text "["⟩).1.co_ords_x = Roomba.init.co_ords_x ∧
    (on_message (fun _ => none) (fun _ => none) [] 0 Roomba.init
      ⟨"t", Payload.text "["⟩).1.co_ords_y = Roomba.init.co_ords_y ∧
    (on_message (fun _ => none) (fun _ => none) [] 0 Roomba.init
      ⟨"t", Payload.text "["⟩).1.co_ords_theta =
      Roomba.init.co_ords_theta ∧
    (on_message (fun _ => none) (fun _ => none) [] 0 Roomba.init
      ⟨"t", Payload.text "["⟩).1.error_code = Roomba.init.error_code ∧
    (on_message (fun _ => none) (fun _ => none) [] 0 Roomba.init
      ⟨"t", Payload.text "["⟩).1.error_message =
      Roomba.init.error_message ∧
    (on_message (fun _ => none) (fun _ => none) [] 0 Roomba.init
      ⟨"t", Payload.text "["⟩).2.1 = 0 ∧
    (on_message (fun _ => none) (fun _ => none) [] 0 Roomba.init
      ⟨"t", Payload.text "["⟩).2.2 = Except.ok () :=
  c6_theorem (fun _ => none) (fun _ => none) [] 0 Roomba.init
    ⟨"t", Payload.text "["⟩ (Or.inr (Or.inl ⟨"[", rfl, rfl⟩))

theorem processLeaf_master_state (errT : Json → Option String) (r : Roomba)
    (key : String) (value : Json) (pfx : Option String) :
    (processLeaf errT r key value pfx).master_state = r.master_state := by
  simp only [processLeaf, apply_ite (Roomba.master_state)]
  simp

theorem walk_master_state (errT : Json → Option String) :
    ∀ (r : Roomba) (fields : List (String × Json)) (pfx : Option String),
    (decode_topics_walk errT r fields pfx).master_state = r.master_state
  | r, [], pfx => by rw [decode_topics_walk.eq_1]
  | r, (key, Json.obj inner) :: rest, none => by
    rw [decode_topics_walk.eq_2,
      walk_master_state errT _ rest none,
      walk_master_state errT r inner (some key)]
  | r, (key, Json.obj inner) :: rest, some tok => by
    rw [decode_topics_walk.eq_3,
      walk_master_state errT _ rest (some tok),
      walk_master_state errT r inner (some (tok ++ "_" ++ key))]
  | r, (key, Json.null) :: rest, pfx => by
    rw [decode_topics_walk.eq_4 errT r pfx key Json.null rest (by simp),
      walk_master_state errT _ rest pfx, processLeaf_master_state]
  | r, (key, Json.bool b) :: rest, pfx => by
    rw [decode_topics_walk.eq_4 errT r pfx key (Json.bool b) rest (by simp),
      walk_master_state errT _ rest pfx, processLeaf_master_state]
  | r, (key, Json.num n) :: rest, pfx => by
    rw [decode_topics_walk.eq_4 errT r pfx key (Json.num n) rest (by simp),
      walk_master_state errT _ rest pfx, processLeaf_master_state]
  | r, (key, Json.str s) :: rest, pfx => by
    rw [decode_topics_walk.eq_4 errT r pfx key (Json.str s) rest (by simp),
      walk_master_state errT _ rest pfx, processLeaf_master_state]
  | r, (key, Json.arr l) :: rest, pfx => by
    rw [decode_topics_walk.eq_4 errT r pfx key (Json.arr l) rest (by simp),
      walk_master_state errT _ rest pfx, processLeaf_master_state]
  termination_by _ fields _ => sizeOf fields
  decreasing_by all_goals (simp_wf; try omega)

theorem apply_fragment_master_state (errT : Json → Option String)
    (r : Roomba) (fields : List (String × Json)) (ra : Roomba)
    (u : Except PyExc Unit) (h : apply_fragment errT r fields = (ra, u)) :
    ra.master_state = dict_merge r.master_state fields := by
  unfold apply_fragment at h
  cases hu : update_state_machine
      (decode_topics_walk errT
        { r with master_state := dict_merge r.master_state fields }
        fields none) none with
  | error e =>
    simp only [hu] at h
    rw [Prod.mk.injEq] at h
    obtain ⟨h1, h2⟩ := h
    rw [← h1, walk_master_state]
  | ok ns =>
    simp only [hu] at h
    rw [Prod.mk.injEq] at h
    obtain ⟨h1, h2⟩ := h
    rw [← h1]
    simp [walk_master_state]

theorem run_callbacks_first_error
    (m : Json) (pre post : List (Json → Except PyExc Unit))
    (c : Json → Except PyExc Unit) (e : PyExc)
    (hpre : ∀ g ∈ pre, g m = Except.ok ())
    (hc : c m = Except.error e) :
    run_callbacks (pre ++ c :: post) m = (pre.length + 1, Except.error e) := by
  induction pre with
  | nil => simp [run_callbacks, hc]
  | cons g gs ih =>
    have hg : g m = Except.ok () := hpre g (List.mem_cons_self g gs)
    have ihx := ih (fun x hx => hpre x (List.mem_cons_of_mem g hx))
    simp [run_callbacks, hg, ihx]

/-- C3 (counterexample): observer exceptions are NOT isolated: with two
registered observers of which the first raises, message handling invokes
only 1 of the 2 observers and the exception escapes the handler. -/
theorem c3_counterexample :
    (on_message (fun _ => some (Json.obj [])) (fun _ => none)
      [fun _ => Except.error (PyExc.callbackError 7), fun _ => Except.ok ()]
      0 Roomba.init ⟨"t", Payload.text "x"⟩).2.1 = 1 ∧
    ([fun _ => Except.error (PyExc.callbackError 7),
      fun _ => Except.ok ()] : List (Json → Except PyExc Unit)).length = 2 ∧
    (on_message (fun _ => some (Json.obj [])) (fun _ => none)
      [fun _ => Except.error (PyExc.callbackError 7), fun _ => Except.ok ()]
      0 Roomba.init ⟨"t", Payload.text "x"⟩).2.2 =
      Except.error (PyExc.callbackError 7) := by
  refine ⟨?_, rfl, ?_⟩ <;>
    simp [on_message, apply_fragment, decode_payload, dict_merge,
      decode_topics_walk, update_state_machine, mssnM_probe, index,
      lookupKey, phaseLookup, phaseMembership, ROOMBA_STATES, Json.isStr,
      run_callbacks, Roomba.init, bind, Except.bind, pure, Except.pure]

/-- C3 (amended): an observer exception is not isolated: the observer loop
is the mapped `run_callbacks`, a raised exception propagates out of
`on_message` and the observers after the failing one are not invoked.
State reconstruction is however unaffected: the merge into the state tree
completes before the observers run, and the resulting state does not
depend on the observers. -/
theorem c3_amended (parse : String → Option Json)
    (errT : Json → Option String) (cbs : List (Json → Except PyExc Unit))
    (now : Int) (r : Roomba) (msg : MqttMsg)
    (fields : List (String × Json)) (ra : Roomba)
    (hexcl : r.exclude = "")
    (hind : r.indent = 0)
    (hdec : decode_payload parse msg.payload = some (Json.obj fields))
    (happly : apply_fragment errT
      { r with master_indent := max r.master_indent msg.topic.length }
      fields = (ra, Except.ok ()))
    (htime : ¬(now - ra.time > ra.update_seconds)) :
    on_message parse errT cbs now r msg =
      (ra, run_callbacks cbs (Json.obj fields)) ∧
    ra.master_state = dict_merge r.master_state fields ∧
    (∀ (pre post : List (Json → Except PyExc Unit))
      (c : Json → Except PyExc Unit) (e : PyExc),
      (∀ g ∈ pre, g (Json.obj fields) = Except.ok ()) →
      c (Json.obj fields) = Except.error e →
      run_callbacks (pre ++ c :: post) (Json.obj fields) =
        (pre.length + 1, Except.error e)) := by
  refine ⟨?_, ?_, ?_⟩
  · simp only [hexcl, hind] at happly
    simp [on_message, hexcl, hind, hdec, happly, htime]
  · have h := apply_fragment_master_state errT
      { r with master_indent := max r.master_indent msg.topic.length }
      fields ra (Except.ok ()) happly
    simpa using h
  · intro pre post c e hpre hc
    exact run_callbacks_first_error (Json.obj fields) pre post c e hpre hc

/-- C3 (witness): the amended statement at a concrete message with one
(non-failing) observer. -/
theorem c3_witness :
    on_message (fun _ => some (Json.obj [])) (fun _ => none)
      [fun _ => Except.ok ()] 0 Roomba.init ⟨"t", Payload.text "x"⟩ =
      ({ Roomba.init with master_indent := 1 },
        run_callbacks [fun _ => Except.ok ()] (Json.obj [])) :=
  (c3_amended (fun _ => some (Json.obj [])) (fun _ => none)
    [fun _ => Except.ok ()] 0 Roomba.init ⟨"t", Payload.text "x"⟩ []
    { Roomba.init with master_indent := 1 } rfl rfl rfl
    (by
      simp [apply_fragment, dict_merge, decode_topics_walk, Roomba.init,
        update_state_machine, mssnM_probe, index, lookupKey, phaseLookup,
        phaseMembership, ROOMBA_STATES, Json.isStr, bind, Except.bind,
        pure, Except.pure]
      rfl)
    (by simp [Roomba.init])).1

end Roombapy
